import Mathlib

/-!
Verification of the spcal single-particle ICP-MS analysis engine.

Shallow embedding of the detection / statistics / calibration core:
* `src/spcal/particle.py` — calibration formulas (over `ℝ`),
* `src/nanopart/util.py` — `poisson_limits` (Currie paired-distribution limits),
* `src/spcal/calc.py` — rolling statistics, `calculate_limits`, and the two
  result-assembly functions,
* `spcal.accumulate_detections` — dual-threshold event detection (this module is
  not present in the sources; it is modelled from the specification and checked
  against the test vectors of the repository in `src/tests/test_nanopart.py`),
* `src/spcal/gui/batch.py` — the batch worker loop `ProcessThread.run`.

Numpy float arrays are modelled as `List ℝ` (exact real arithmetic); the
detection accumulator, which uses only comparison and addition, is generic over
a linearly ordered additive monoid so that its theorems cover real signals
while concrete instances evaluate on `ℤ`.
-/

/-! ### Numpy-style helpers over `List ℝ` -/

/-- Inclusive prefix sums, as `np.cumsum`. -/
def cumsum (x : List ℝ) : List ℝ := (x.scanl (· + ·) 0).drop 1

/-- Arithmetic mean, as `np.mean`. -/
noncomputable def np_mean (x : List ℝ) : ℝ := x.sum / x.length

/-- Population standard deviation, as `np.std`: the square root of the mean of
squared deviations from the mean. -/
noncomputable def np_std (x : List ℝ) : ℝ :=
  Real.sqrt ((x.map (fun v => (v - np_mean x) ^ 2)).sum / x.length)

/-- Ascending sort of a list of reals (comparison on `ℝ` is classical). -/
noncomputable def sortReal (x : List ℝ) : List ℝ := x.insertionSort (· ≤ ·)

/-- Median, as `np.median`: middle element of the sorted list for odd length,
average of the two middle elements for even length. -/
noncomputable def np_median (x : List ℝ) : ℝ :=
  let s := sortReal x
  let n := s.length
  if n % 2 = 1 then s.getD (n / 2) 0
  else (s.getD (n / 2 - 1) 0 + s.getD (n / 2) 0) / 2

/-- Minimum of a list, as `np.amin` (junk value 0 on the empty list, on which
numpy raises). -/
def np_amin (x : List ℝ) : ℝ :=
  match x with
  | [] => 0
  | h :: t => t.foldl min h

/-- Maximum of a list, as `np.amax` (junk value 0 on the empty list, on which
numpy raises). -/
def np_amax (x : List ℝ) : ℝ :=
  match x with
  | [] => 0
  | h :: t => t.foldl max h

/-- Rounding to the nearest integer with ties to even, as `np.around` with
`decimals=0`. -/
noncomputable def np_around (x : ℝ) : ℝ :=
  if Int.fract x = 1 / 2 then ((2 * round (x / 2) : ℤ) : ℝ) else ((round x : ℤ) : ℝ)

/-- Sign-preserving real cube root, as `np.cbrt`. -/
noncomputable def cbrt (x : ℝ) : ℝ :=
  if x < 0 then -((-x) ^ ((1 : ℝ) / 3)) else x ^ ((1 : ℝ) / 3)

/-- Python substring containment over explicit character lists
(`sub in s` for strings). -/
def containsSub (s sub : List Char) : Bool :=
  match s with
  | [] => sub.isEmpty
  | _ :: t => sub.isPrefixOf s || containsSub t sub

/-- Test for `sub in s` on Python strings. -/
def str_contains (s sub : String) : Bool := containsSub s.data sub.data

/-! ### Rolling statistics (`src/spcal/calc.py`, non-bottleneck branches) -/

/-- Translation of `moving_mean` (cumsum branch): `r = np.cumsum(x)`;
`r[n:] = r[n:] - r[:-n]`; `return r[n - 1:] / n`. -/
noncomputable def moving_mean (x : List ℝ) (n : ℕ) : List ℝ :=
  let r := cumsum x
  let r2 := r.enum.map (fun p => if n ≤ p.1 then p.2 - r.getD (p.1 - n) 0 else p.2)
  (r2.drop (n - 1)).map (· / (n : ℝ))

/-- Translation of `moving_median` (sort branch).  The source maintains the
sorted window incrementally with `bisect`/`insort` and finally halves
`sort[m] + sort[m2]`; each output entry is exactly
`(sorted window)[m] + (sorted window)[m2]` over `2`, with `m = n // 2` and
`m2 = m + n % 2 - 1`. -/
noncomputable def moving_median (x : List ℝ) (n : ℕ) : List ℝ :=
  let m := n / 2
  let m2 := m + n % 2 - 1
  (List.range (x.length - n + 1)).map (fun start =>
    let s := sortReal ((x.drop start).take n)
    (s.getD m 0 + s.getD m2 0) / 2)

/-- Translation of `moving_std` (cumsum branch): window means `sums` and window
mean-squares `sqrs` from cumulative tables divided by `n`, then
`sqrt(sqrs - sums * sums)` elementwise. -/
noncomputable def moving_std (x : List ℝ) (n : ℕ) : List ℝ :=
  let tab := (cumsum x).map (· / (n : ℝ))
  let sums := (List.range (x.length - n + 1)).map (fun j =>
    if j = 0 then tab.getD (n - 1) 0 else tab.getD (j + n - 1) 0 - tab.getD (j - 1) 0)
  let tab2 := (cumsum (x.map (fun v => v * v))).map (· / (n : ℝ))
  let sqrs := (List.range (x.length - n + 1)).map (fun j =>
    if j = 0 then tab2.getD (n - 1) 0 else tab2.getD (j + n - 1) 0 - tab2.getD (j - 1) 0)
  (sums.zip sqrs).map (fun p => Real.sqrt (p.2 - p.1 * p.1))

/-- Reflect padding of width `w` on both sides, as
`np.pad(x, [w, w], mode="reflect")` (for `w < x.length`, the regime used by
`calculate_limits` where `w = window // 2`). -/
def reflect_pad (x : List ℝ) (w : ℕ) : List ℝ :=
  ((x.drop 1).take w).reverse ++ x ++ (x.reverse.drop 1).take w

/-! ### Particle calibration formulas (`src/spcal/particle.py`) -/

/-- Translation of `particle_mass`:
`signal * (dwell * flowrate * efficiency / (response_factor * mass_fraction))`. -/
noncomputable def particle_mass (signal dwell efficiency flowrate response_factor : ℝ)
    (mass_fraction : ℝ := 1.0) : ℝ :=
  signal * (dwell * flowrate * efficiency / (response_factor * mass_fraction))

/-- Elementwise `particle_mass` over an array of signals (numpy broadcasting). -/
noncomputable def particle_mass_arr (signal : List ℝ)
    (dwell efficiency flowrate response_factor : ℝ) (mass_fraction : ℝ := 1.0) : List ℝ :=
  signal.map (fun s => particle_mass s dwell efficiency flowrate response_factor mass_fraction)

/-- Translation of `particle_size`: `np.cbrt(6.0 / (np.pi * density) * masses)`. -/
noncomputable def particle_size (masses density : ℝ) : ℝ :=
  cbrt (6.0 / (Real.pi * density) * masses)

/-- Translation of `reference_particle_mass`:
`4.0 / 3.0 * np.pi * (diameter / 2.0) ** 3 * density`. -/
noncomputable def reference_particle_mass (density diameter : ℝ) : ℝ :=
  4.0 / 3.0 * Real.pi * (diameter / 2.0) ^ 3 * density

/-- Translation of `particle_number_concentration`:
`count / (efficiency * flowrate * time)`. -/
noncomputable def particle_number_concentration (count : ℕ)
    (efficiency flowrate time : ℝ) : ℝ :=
  (count : ℝ) / (efficiency * flowrate * time)

/-- Translation of `particle_total_concentration`:
`np.sum(masses) / (efficiency * flowrate * time)`. -/
noncomputable def particle_total_concentration (masses : List ℝ)
    (efficiency flowrate time : ℝ) : ℝ :=
  masses.sum / (efficiency * flowrate * time)

/-! ### Poisson limits (`src/nanopart/util.py`) -/

/-- Translation of `poisson_limits`: Currie paired-distribution `Yc`/`Yd` for a
background mean `ub`, with the low-count correction `epsilon` added when
`ub < 5.0`.  The constants `2.33`, `2.71`, `4.65` realise the default error
rates `alpha = beta = 0.05`. -/
noncomputable def poisson_limits (ub : ℝ) (epsilon : ℝ := 0.5) : ℝ × ℝ :=
  let ub := if ub < 5.0 then ub + epsilon else ub
  (2.33 * Real.sqrt ub, 2.71 + 4.65 * Real.sqrt ub)

/-! ### Limit estimation (`src/spcal/calc.py`, `calculate_limits`)

The Poisson limit pair used by `calculate_limits` is imported in the source as
`from spcal.poisson import formula_c as poisson_limits`; the module
`spcal/poisson.py` is not among the sources, so the embedding takes that
function as an explicit parameter `plim : mean → alpha → beta → (sc, sd)`,
applied elementwise when the mean is a per-sample array. -/

/-- Union of a numpy scalar and a numpy 1-d array, as returned by
`calculate_limits` and consumed by the result-assembly functions. -/
inductive NumArr where
  | scalar (v : ℝ)
  | arr (vs : List ℝ)

/-- Elementwise application of a function, as numpy broadcasting. -/
noncomputable def NumArr.app (f : ℝ → ℝ) : NumArr → NumArr
  | scalar v => scalar (f v)
  | arr vs => arr (vs.map f)

/-- Return value of `calculate_limits`:
`method, {symbol: value, ...}, (mean signal, limit of criticality, limit of detection)`. -/
structure LimitsResult where
  method : String
  params : List (String × ℝ)
  mean : NumArr
  lc : NumArr
  ld : NumArr

/-- Body of `calculate_limits` after the method string has been resolved
(`Automatic`/`Highest` replaced by `Gaussian` or `Poisson`): the
scalar-versus-windowed split and the Gaussian/Poisson family split.  `ub0` is
the global baseline computed before resolution, reused by the scalar branch. -/
noncomputable def calculate_limits_resolved (plim : ℝ → ℝ → ℝ → ℝ × ℝ)
    (responses : List ℝ) (method : String) (ub0 : ℝ) (sigma : ℝ)
    (error_rates : ℝ × ℝ) (window : Option ℕ) : LimitsResult :=
  let scalarCase : LimitsResult :=
    if str_contains method "Gaussian" then
      let std := np_std responses
      let ld := ub0 + sigma * std
      ⟨method, [("σ", sigma)], .scalar ub0, .scalar ld, .scalar ld⟩
    else
      let scsd := plim ub0 error_rates.1 error_rates.2
      ⟨method, [("α", error_rates.1), ("β", error_rates.2)],
        .scalar ub0, .scalar (ub0 + scsd.1), .scalar (ub0 + scsd.2)⟩
  match window with
  | none => scalarCase
  | some w =>
    if w < 2 then scalarCase
    else
      let pad := reflect_pad responses (w / 2)
      let ub :=
        if str_contains method "Median" then (moving_median pad w).take responses.length
        else (moving_mean pad w).take responses.length
      if str_contains method "Gaussian" then
        let std := (moving_std pad w).take responses.length
        let ld := (ub.zip std).map (fun p => p.1 + sigma * p.2)
        ⟨method, [("σ", sigma)], .arr ub, .arr ld, .arr ld⟩
      else
        ⟨method, [("α", error_rates.1), ("β", error_rates.2)], .arr ub,
          .arr (ub.map (fun u => u + (plim u error_rates.1 error_rates.2).1)),
          .arr (ub.map (fun u => u + (plim u error_rates.1 error_rates.2).2))⟩

/-- Translation of `calculate_limits`: validation of the signal and the method
string, baseline `ub` as global median or mean, resolution of `Automatic`
(Poisson below a mean of 50) and `Highest` (Gaussian exactly when its global
detection limit is strictly larger than the global Poisson one), then the
resolved computation. -/
noncomputable def calculate_limits (plim : ℝ → ℝ → ℝ → ℝ × ℝ)
    (responses : List ℝ) (method : String) (sigma : ℝ := 3.0)
    (error_rates : ℝ × ℝ := (0.05, 0.05)) (window : Option ℕ := none) :
    Except String LimitsResult :=
  if responses.length = 0 then .error "Responses invalid."
  else if method ∉ ["Automatic", "Highest", "Gaussian", "Gaussian Median", "Poisson"] then
    .error "method must be one of \"Automatic\", \"Highest\", \"Gaussian\", \"Gaussian Median\", \"Poisson\""
  else
    let ub := if str_contains method "Median" then np_median responses else np_mean responses
    let method :=
      if method = "Automatic" then (if ub < 50.0 then "Poisson" else "Gaussian")
      else if method = "Highest" then
        let lpoisson := ub + (plim ub error_rates.1 error_rates.2).2
        let lgaussian := ub + sigma * np_std responses
        (if lgaussian > lpoisson then "Gaussian" else "Poisson")
      else method
    .ok (calculate_limits_resolved plim responses method ub sigma error_rates window)

/-! ### Result assembly (`src/spcal/calc.py`) -/

/-- Result record of `results_from_mass_response`. -/
structure MassResponseResults where
  masses : List ℝ
  sizes : List ℝ
  background_size : ℝ
  lod : NumArr
  lod_mass : NumArr
  lod_size : NumArr

/-- Translation of `results_from_mass_response`: a per-sample `lod` array is
first summarised to `[amin, amax, mean, median]`, masses come from the mass
response factor, sizes from the spherical-volume formula. -/
noncomputable def results_from_mass_response (detections : List ℝ) (background : ℝ)
    (lod : NumArr) (density massfraction massresponse : ℝ) : MassResponseResults :=
  let lod : NumArr :=
    match lod with
    | .arr vs => .arr [np_amin vs, np_amax vs, np_mean vs, np_median vs]
    | .scalar v => .scalar v
  let masses := detections.map (· * (massresponse / massfraction))
  let sizes := masses.map (fun m => particle_size m density)
  let bed := particle_size (background * (massresponse / massfraction)) density
  let lod_mass := lod.app (· * (massresponse / massfraction))
  let lod_size := lod_mass.app (fun m => particle_size m density)
  ⟨masses, sizes, bed, lod, lod_mass, lod_size⟩

/-- Result record of `results_from_nebulisation_efficiency`. -/
structure NebulisationResults where
  masses : List ℝ
  sizes : List ℝ
  concentration : ℝ
  number_concentration : ℝ
  background_concentration : ℝ
  background_size : ℝ
  lod : NumArr
  lod_mass : NumArr
  lod_size : NumArr

/-- Translation of `results_from_nebulisation_efficiency`: a per-sample `lod`
array is first summarised to `[amin, amax, mean, median]`, masses come from
`particle_mass`, sizes from `particle_size`, concentrations from the
efficiency formulas. -/
noncomputable def results_from_nebulisation_efficiency (detections : List ℝ)
    (background : ℝ) (lod : NumArr) (density dwelltime efficiency massfraction
    uptake response time : ℝ) : NebulisationResults :=
  let lod : NumArr :=
    match lod with
    | .arr vs => .arr [np_amin vs, np_amax vs, np_mean vs, np_median vs]
    | .scalar v => .scalar v
  let masses := particle_mass_arr detections dwelltime efficiency uptake response massfraction
  let sizes := masses.map (fun m => particle_size m density)
  let number_concentration :=
    np_around (particle_number_concentration detections.length efficiency uptake time)
  let concentration := particle_total_concentration masses efficiency uptake time
  let ionic := background / response
  let bed := particle_size
    (particle_mass background dwelltime efficiency uptake response massfraction) density
  let lod_mass := lod.app
    (fun v => particle_mass v dwelltime efficiency uptake response massfraction)
  let lod_size := lod_mass.app (fun m => particle_size m density)
  ⟨masses, sizes, concentration, number_concentration, ionic, bed, lod, lod_mass, lod_size⟩

/-! ### Detection accumulator (`spcal.accumulate_detections`)

The tested accumulator lives in a spcal module that is not among the sources
(only its tests in `src/tests/test_nanopart.py` call it; `src/nanopart/util.py`
holds an older scipy variant without regions and a dead, incomplete rewrite).
It is therefore modelled from the specification. -/

/-- Modelled from the spec: a `[start, endExcl)` pair is a maximal contiguous
run of samples strictly above the critical value `lc` (mask `m`) in a signal of
length `n`: nonempty, within bounds, all samples marked, and not extendable on
either side. -/
def isRun (m : ℕ → Bool) (n s e : ℕ) : Bool :=
  decide (s < e) && decide (e ≤ n) && ((List.range' s (e - s)).all m) &&
    (decide (s = 0) || !(m (s - 1))) && (decide (e = n) || !(m e))

/-- Arithmetic total of `y` over the half-open index range `[s, e)`. -/
def rangeSum {α : Type} [AddCommMonoid α] (y : List α) (s e : ℕ) : α :=
  ((y.drop s).take (e - s)).sum

/-- Modelled from the spec: the mark of step 1 — sample `j` is in-region when
it is strictly above the critical value `lc`. -/
def detMask {α : Type} [AddCommMonoid α] [LinearOrder α] (y : List α) (lc : ℕ → α) :
    ℕ → Bool :=
  fun j => decide (lc j < y.getD j (0 : α))

/-- Modelled from the spec: the maximal contiguous runs of marked samples,
enumerated left to right as `[start, endExcl)` pairs. -/
def detRuns {α : Type} [AddCommMonoid α] [LinearOrder α] (y : List α) (lc : ℕ → α) :
    List (ℕ × ℕ) :=
  ((List.range (y.length + 1)).flatMap (fun s =>
    (List.range (y.length + 1)).map (fun e => (s, e)))).filter
      (fun p => isRun (detMask y lc) y.length p.1 p.2)

/-- Modelled from the spec: step 2 — a run is confirmed when at least one of
its samples is strictly above the detection limit `ld`. -/
def detConfirmed {α : Type} [AddCommMonoid α] [LinearOrder α] (y : List α)
    (lc ld : ℕ → α) : List (ℕ × ℕ) :=
  (detRuns y lc).filter (fun p =>
    (List.range' p.1 (p.2 - p.1)).any (fun j => decide (ld j < y.getD j (0 : α))))

/-- Modelled from the spec: `accumulate(signal, lc, ld)` with per-sample
thresholds `lc`/`ld` (constant functions model scalar limits).  Fails when the
critical value exceeds the detection limit anywhere; otherwise sums each
confirmed run, labels its samples `1..k` left to right (`0` elsewhere), and
records its region, whose end column is the exclusive end of the run clamped
to the last valid index (`np.add.reduceat` compatible), as fixed by the test
vectors of the repository. -/
def accumulate_detections {α : Type} [AddCommMonoid α] [LinearOrder α]
    (y : List α) (lc ld : ℕ → α) :
    Except String (List α × List ℕ × List (ℕ × ℕ)) :=
  if (List.range y.length).any (fun i => decide (ld i < lc i)) then
    .error "critical value exceeds detection limit"
  else
    let confirmed := detConfirmed y lc ld
    let sums := confirmed.map (fun p => rangeSum y p.1 p.2)
    let labels := (List.range y.length).map (fun j =>
      ((confirmed.findIdx? (fun p => decide (p.1 ≤ j) && decide (j < p.2))).map (· + 1)).getD 0)
    let regions := confirmed.map (fun p => (p.1, min p.2 (y.length - 1)))
    .ok (sums, labels, regions)

/-! ### Batch worker (`src/spcal/gui/batch.py`, `ProcessThread.run`)

The worker iterates over the job list; before each job it polls the
cooperative-interruption flag and breaks if requested; each job runs three
fallible stages (detection import/limits, calibration, export).  Each stage is
wrapped in `try/except ValueError` only: a `ValueError` emits `processFailed`
and continues with the next job, and a job surviving all three stages emits
`processComplete`; but an exception that is not a `ValueError` — an `OSError`
from `np.genfromtxt` on a missing input file, a `TypeError` from
`events * dwelltime` when `dwelltime` is an unset `None` (evaluated before the
None-guard over `method_kws`), a `KeyError` on `masses` in the cell branch
after calibration was skipped — is not caught: it escapes `run`, so nothing is
emitted for the started job and no later job is processed.  Stage outcomes are
modelled as predetermined per-stage results on the job, the interruption flag
as a predicate on the poll index. -/

/-- Result of one fallible stage of a batch job: completion, a `ValueError`
(the only exception type the loop catches), or any other exception
(`OSError`, `TypeError`, `KeyError`, ...), which the loop does not catch. -/
inductive StageResult where
  | ok
  | valueError
  | otherError
deriving DecidableEq, Repr

/-- Batch job with its input filename and the modelled result of each fallible
stage. -/
structure BatchJob where
  name : String
  detect : StageResult
  calibrate : StageResult
  exportStep : StageResult

/-- Outcome signal emitted for one job: `processComplete` or `processFailed`,
carrying the input filename. -/
inductive JobOutcome where
  | complete (name : String)
  | failed (name : String)
deriving DecidableEq, Repr

/-- Single-job body of `ProcessThread.run`: the three `try/except ValueError`
blocks.  The first stage raising `ValueError` emits `processFailed` and skips
the rest (`continue`); a job surviving all stages emits `processComplete`;
`none` models an uncaught non-`ValueError` exception escaping `run`, with no
emission. -/
def processJob (j : BatchJob) : Option JobOutcome :=
  match j.detect with
  | .valueError => some (.failed j.name)
  | .otherError => none
  | .ok =>
    match j.calibrate with
    | .valueError => some (.failed j.name)
    | .otherError => none
    | .ok =>
      match j.exportStep with
      | .valueError => some (.failed j.name)
      | .otherError => none
      | .ok => some (.complete j.name)

/-- Loop of `ProcessThread.run` from poll index `i`: poll
`isInterruptionRequested` and break, process one job to its emitted outcome
and continue, or terminate the whole loop on an uncaught exception. -/
def runFrom (interrupted : ℕ → Bool) : List BatchJob → ℕ → List JobOutcome
  | [], _ => []
  | j :: rest, i =>
    if interrupted i then []
    else
      match processJob j with
      | none => []
      | some o => o :: runFrom interrupted rest (i + 1)

/-- Translation of `ProcessThread.run`: the emitted outcome sequence of a batch. -/
def ProcessThread.run (jobs : List BatchJob) (interrupted : ℕ → Bool) : List JobOutcome :=
  runFrom interrupted jobs 0
/-! ### Theorems -/

/-- C1 (corrected, counterexample): `particle_mass` does not multiply by
`mass_fraction`: at signal 1, dwell 1, efficiency 1, flowrate 1,
response factor 1 and mass fraction 2 the code yields 1/2, not the claimed
`signal*dwell*flowrate*efficiency*mass_fraction/response_factor = 2`. -/
theorem particle_mass_multiplies_counterexample :
    ¬ particle_mass 1 1 1 1 1 2 = 1 * 1 * 1 * 1 * 2 / 1 := by
  norm_num [particle_mass]

/-- C1 (amended): `particle_mass` returns
`signal * dwell * flowrate * efficiency / (response_factor * mass_fraction)`,
elementwise over arrays or scalars. -/
theorem particle_mass_formula (s d e f r m : ℝ) (l : List ℝ) :
    particle_mass s d e f r m = s * d * f * e / (r * m) ∧
    particle_mass_arr l d e f r m = l.map (fun v => v * d * f * e / (r * m)) := by
  constructor
  · unfold particle_mass; ring
  · unfold particle_mass_arr particle_mass
    exact List.map_congr_left (fun v _ => by ring)

/-- C2: on the signal `[2,1,2,2,1,0,0,1,0,2]` with `lc = ld = 1`, the
accumulator confirms all three maximal runs above `lc`, numbered left to
right, with `sums = [2,4,2]`, `labels = [1,0,2,2,0,0,0,0,0,3]` and
`regions = [[0,1],[2,4],[9,9]]`. -/
theorem accumulate_example_lc1_ld1 :
    accumulate_detections ([2,1,2,2,1,0,0,1,0,2] : List ℤ) (fun _ => 1) (fun _ => 1) =
      .ok ([2,4,2], [1,0,2,2,0,0,0,0,0,3], [(0,1),(2,4),(9,9)]) := by
  rfl

/-- C4: the accumulator fails with the `InvalidParameters` message exactly when
`lc > ld` at some position, never silently correcting the inputs; in
particular it fails on `[2,1,2,2,1,0,0,1,0,2]` with `lc = 1`, `ld = 0`. -/
theorem accumulate_invalid_parameters :
    (∀ (α : Type) [AddCommMonoid α] [LinearOrder α] (y : List α) (lc ld : ℕ → α),
      accumulate_detections y lc ld = .error "critical value exceeds detection limit" ↔
        ∃ i < y.length, ld i < lc i) ∧
    accumulate_detections ([2,1,2,2,1,0,0,1,0,2] : List ℤ) (fun _ => 1) (fun _ => 0) =
      .error "critical value exceeds detection limit" := by
  refine ⟨?_, by rfl⟩
  intro α _ _ y lc ld
  by_cases h : (List.range y.length).any (fun i => decide (ld i < lc i)) = true
  · unfold accumulate_detections
    rw [if_pos h]
    exact iff_of_true rfl (by simpa [List.any_eq_true, List.mem_range] using h)
  · unfold accumulate_detections
    rw [if_neg h]
    refine iff_of_false (fun hc => Except.noConfusion hc) ?_
    simpa [List.any_eq_true, List.mem_range] using h

/-- C5: for a nonnegative background mean, the Poisson limit pair (at the
default rates realised by the constants 2.33 / 2.71 / 4.65) satisfies
`sd ≥ sc ≥ 0`. -/
theorem poisson_limits_ordered (ub : ℝ) (h : 0 ≤ ub) :
    0 ≤ (poisson_limits ub).1 ∧ (poisson_limits ub).1 ≤ (poisson_limits ub).2 := by
  unfold poisson_limits
  have hs := Real.sqrt_nonneg (if ub < 5.0 then ub + 0.5 else ub)
  constructor
  · dsimp only
    nlinarith
  · dsimp only
    nlinarith

/-- Witness for C5 at mean 0. -/
theorem poisson_limits_ordered_witness :
    (0:ℝ) ≤ 0 ∧ 0 ≤ (poisson_limits 0).1 ∧ (poisson_limits 0).1 ≤ (poisson_limits 0).2 :=
  ⟨le_refl 0, poisson_limits_ordered 0 (le_refl 0)⟩

/-- C8: the spherical mass and size formulas are exact inverses for positive
density and diameter. -/
theorem particle_size_mass_roundtrip (density diameter : ℝ)
    (hρ : 0 < density) (hd : 0 < diameter) :
    particle_size (reference_particle_mass density diameter) density = diameter := by
  have hπ := Real.pi_ne_zero
  have harg : 6.0 / (Real.pi * density) * reference_particle_mass density diameter =
      diameter ^ 3 := by
    unfold reference_particle_mass
    field_simp
    ring
  unfold particle_size cbrt
  rw [harg]
  have h3 : (0:ℝ) < diameter ^ 3 := by positivity
  rw [if_neg (not_lt.mpr h3.le)]
  rw [← Real.rpow_natCast diameter 3, ← Real.rpow_mul hd.le]
  norm_num

/-- Witness for C8 at density 1, diameter 1. -/
theorem particle_size_mass_roundtrip_witness :
    (0:ℝ) < 1 ∧ particle_size (reference_particle_mass 1 1) 1 = 1 :=
  ⟨one_pos, particle_size_mass_roundtrip 1 1 one_pos one_pos⟩

/-- C9 (code bug): the batch loop catches only `ValueError`, so a stage
raising any other exception (a `TypeError` from `events * dwelltime` with
`dwelltime` an unset `None`, evaluated before the None-guard; an `OSError`
from a missing input file; a `KeyError` on `masses` in the cell branch)
escapes `run`: on the batch `[a.csv, b.csv]` where the first job raises such
an exception during calibration and no interruption is requested, the started
first job emits no outcome and the second job — which alone would complete —
is never processed, against the claim that every started file yields exactly
one outcome report and that one failure never blocks later files.  With a
`ValueError` in the same place the contract does hold. -/
theorem batch_uncaught_exception_aborts :
    ProcessThread.run
      [⟨"a.csv", .ok, .otherError, .ok⟩, ⟨"b.csv", .ok, .ok, .ok⟩]
      (fun _ => false) = [] ∧
    ProcessThread.run [⟨"b.csv", .ok, .ok, .ok⟩] (fun _ => false) =
      [.complete "b.csv"] ∧
    ProcessThread.run
      [⟨"a.csv", .ok, .valueError, .ok⟩, ⟨"b.csv", .ok, .ok, .ok⟩]
      (fun _ => false) = [.failed "a.csv", .complete "b.csv"] :=
  ⟨by rfl, by rfl, by rfl⟩

/-- C10: in both result-assembly functions a per-sample `lod` array is
replaced by the four-element summary `[amin, amax, mean, median]`, and the
returned `lod`, `lod_mass` and `lod_size` fields are that summary and its
elementwise images. -/
theorem windowed_lod_summarised (dets : List ℝ) (bg : ℝ) (xs : List ℝ)
    (ρ mf mr dw eff up resp t : ℝ) :
    ((results_from_mass_response dets bg (.arr xs) ρ mf mr).lod =
        .arr [np_amin xs, np_amax xs, np_mean xs, np_median xs] ∧
      (results_from_mass_response dets bg (.arr xs) ρ mf mr).lod_mass =
        .arr ([np_amin xs, np_amax xs, np_mean xs, np_median xs].map (· * (mr / mf))) ∧
      (results_from_mass_response dets bg (.arr xs) ρ mf mr).lod_size =
        .arr (([np_amin xs, np_amax xs, np_mean xs, np_median xs].map (· * (mr / mf))).map
          (fun m => particle_size m ρ))) ∧
    ((results_from_nebulisation_efficiency dets bg (.arr xs) ρ dw eff mf up resp t).lod =
        .arr [np_amin xs, np_amax xs, np_mean xs, np_median xs] ∧
      (results_from_nebulisation_efficiency dets bg (.arr xs) ρ dw eff mf up resp t).lod_mass =
        .arr ([np_amin xs, np_amax xs, np_mean xs, np_median xs].map
          (fun v => particle_mass v dw eff up resp mf)) ∧
      (results_from_nebulisation_efficiency dets bg (.arr xs) ρ dw eff mf up resp t).lod_size =
        .arr (([np_amin xs, np_amax xs, np_mean xs, np_median xs].map
          (fun v => particle_mass v dw eff up resp mf)).map (fun m => particle_size m ρ))) :=
  ⟨⟨rfl, rfl, rfl⟩, ⟨rfl, rfl, rfl⟩⟩

/-- C7 (corrected, counterexample): the hyphenated method string
`"Gaussian-Median"` is rejected with the `InvalidParameters` error even on a
non-empty signal: the spelling accepted by the code is `"Gaussian Median"`. -/
theorem gaussian_median_hyphen_rejected :
    calculate_limits (fun _ _ _ => ((0:ℝ), (0:ℝ))) [1] "Gaussian-Median" 3 (0.05, 0.05) none =
      .error "method must be one of \"Automatic\", \"Highest\", \"Gaussian\", \"Gaussian Median\", \"Poisson\"" := by
  rfl

/-- C7 (amended): on a non-empty signal, `calculate_limits` fails with the
`InvalidParameters` message exactly when the method string is not one of
`Automatic`, `Highest`, `Gaussian`, `Gaussian Median` (with a space),
`Poisson`. -/
theorem calculate_limits_method_validation (plim : ℝ → ℝ → ℝ → ℝ × ℝ)
    (responses : List ℝ) (method : String) (sigma : ℝ) (er : ℝ × ℝ)
    (window : Option ℕ) (h : responses ≠ []) :
    calculate_limits plim responses method sigma er window =
        .error "method must be one of \"Automatic\", \"Highest\", \"Gaussian\", \"Gaussian Median\", \"Poisson\""
      ↔ method ∉ ["Automatic", "Highest", "Gaussian", "Gaussian Median", "Poisson"] := by
  have hlen : ¬ responses.length = 0 := by simpa [List.length_eq_zero] using h
  unfold calculate_limits
  rw [if_neg hlen]
  by_cases hm : method ∈ ["Automatic", "Highest", "Gaussian", "Gaussian Median", "Poisson"]
  · rw [if_neg (not_not_intro hm)]
    exact iff_of_false (fun hc => Except.noConfusion hc) (not_not_intro hm)
  · rw [if_pos hm]
    exact iff_of_true rfl hm

/-- Witness for the amended theorem of C7: the unknown method `"Foo"` on the
non-empty signal `[1]` is rejected. -/
theorem calculate_limits_method_validation_witness :
    ([1] : List ℝ) ≠ [] ∧
    (calculate_limits (fun _ _ _ => ((0:ℝ), (0:ℝ))) [1] "Foo" 3 (0.05, 0.05) none =
        .error "method must be one of \"Automatic\", \"Highest\", \"Gaussian\", \"Gaussian Median\", \"Poisson\""
      ↔ "Foo" ∉ ["Automatic", "Highest", "Gaussian", "Gaussian Median", "Poisson"]) :=
  ⟨by simp, calculate_limits_method_validation (fun _ _ _ => ((0:ℝ), (0:ℝ)))
    [1] "Foo" 3 (0.05, 0.05) none (by simp)⟩

/-- C6: for a non-empty signal, method `Highest` compares the global Gaussian
detection limit `mean + sigma * std` against the global Poisson detection
limit obtained from the global unwindowed mean, selects `Gaussian` exactly
when its limit is strictly larger, and then behaves exactly as a direct call
with the selected method under the same window setting — the selection itself
never uses windowed statistics. -/
theorem highest_selects_by_global_limits (plim : ℝ → ℝ → ℝ → ℝ × ℝ)
    (responses : List ℝ) (sigma : ℝ) (er : ℝ × ℝ) (window : Option ℕ)
    (h : responses ≠ []) :
    calculate_limits plim responses "Highest" sigma er window =
      calculate_limits plim responses
        (if np_mean responses + sigma * np_std responses >
            np_mean responses + (plim (np_mean responses) er.1 er.2).2
         then "Gaussian" else "Poisson")
        sigma er window := by
  have hlen : ¬ responses.length = 0 := by simpa [List.length_eq_zero] using h
  by_cases hsel : np_mean responses + sigma * np_std responses >
      np_mean responses + (plim (np_mean responses) er.1 er.2).2
  · rw [if_pos hsel]
    unfold calculate_limits
    rw [if_neg hlen, if_neg hlen]
    rw [if_neg (by decide :
      ¬ ("Highest" ∉ ["Automatic", "Highest", "Gaussian", "Gaussian Median", "Poisson"]))]
    rw [if_neg (by decide :
      ¬ ("Gaussian" ∉ ["Automatic", "Highest", "Gaussian", "Gaussian Median", "Poisson"]))]
    simp only [show str_contains "Highest" "Median" = false from rfl,
      show str_contains "Gaussian" "Median" = false from rfl, Bool.false_eq_true, if_false,
      show ("Highest" = "Automatic") = False from by simp,
      show ("Gaussian" = "Automatic") = False from by simp,
      show ("Highest" = "Highest") = True from by simp,
      show ("Gaussian" = "Highest") = False from by simp, if_true]
    rw [if_pos hsel]
  · rw [if_neg hsel]
    unfold calculate_limits
    rw [if_neg hlen, if_neg hlen]
    rw [if_neg (by decide :
      ¬ ("Highest" ∉ ["Automatic", "Highest", "Gaussian", "Gaussian Median", "Poisson"]))]
    rw [if_neg (by decide :
      ¬ ("Poisson" ∉ ["Automatic", "Highest", "Gaussian", "Gaussian Median", "Poisson"]))]
    simp only [show str_contains "Highest" "Median" = false from rfl,
      show str_contains "Poisson" "Median" = false from rfl, Bool.false_eq_true, if_false,
      show ("Highest" = "Automatic") = False from by simp,
      show ("Poisson" = "Automatic") = False from by simp,
      show ("Highest" = "Highest") = True from by simp,
      show ("Poisson" = "Highest") = False from by simp, if_true]
    rw [if_neg hsel]

/-- Witness for C6 on the signal `[1]` with a trivial Poisson-limit function. -/
theorem highest_selects_by_global_limits_witness :
    ([1] : List ℝ) ≠ [] ∧
    calculate_limits (fun _ _ _ => ((0:ℝ), (0:ℝ))) [1] "Highest" 3 (0.05, 0.05) none =
      calculate_limits (fun _ _ _ => ((0:ℝ), (0:ℝ))) [1]
        (if np_mean [1] + 3 * np_std [1] >
            np_mean [1] + ((fun _ _ _ => ((0:ℝ), (0:ℝ))) (np_mean [1]) (0.05:ℝ) (0.05:ℝ)).2
         then "Gaussian" else "Poisson")
        3 (0.05, 0.05) none :=
  ⟨by simp, highest_selects_by_global_limits (fun _ _ _ => ((0:ℝ), (0:ℝ)))
    [1] 3 (0.05, 0.05) none (by simp)⟩

/-- Helper: unpacking of the run predicate — a run is nonempty, in bounds,
fully marked, and closed on the right (it either reaches the end of the
signal or the next sample is unmarked). -/
theorem isRun_spec {m : ℕ → Bool} {n s e : ℕ} (h : isRun m n s e = true) :
    s < e ∧ e ≤ n ∧ (∀ j, s ≤ j → j < e → m j = true) ∧ (e = n ∨ m e = false) := by
  simp only [isRun, Bool.and_eq_true, decide_eq_true_eq, List.all_eq_true, Bool.or_eq_true,
    Bool.not_eq_true'] at h
  obtain ⟨⟨⟨⟨h1, h2⟩, h3⟩, _⟩, h5⟩ := h
  refine ⟨h1, h2, ?_, h5⟩
  intro j hsj hje
  refine h3 j ?_
  have : s + (e - s) = e := Nat.add_sub_cancel' (Nat.le_of_lt h1)
  exact List.mem_range'_1.mpr ⟨hsj, by omega⟩

/-- Helper: the successful form of the accumulator when the threshold
precondition holds. -/
theorem accumulate_detections_ok {α : Type} [AddCommMonoid α] [LinearOrder α]
    (y : List α) (lc ld : ℕ → α)
    (hany : ¬ (List.range y.length).any (fun i => decide (ld i < lc i)) = true) :
    accumulate_detections y lc ld =
      .ok ((detConfirmed y lc ld).map (fun p => rangeSum y p.1 p.2),
        (List.range y.length).map (fun j =>
          (((detConfirmed y lc ld).findIdx?
            (fun p => decide (p.1 ≤ j) && decide (j < p.2))).map (· + 1)).getD 0),
        (detConfirmed y lc ld).map (fun p => (p.1, min p.2 (y.length - 1)))) := by
  unfold accumulate_detections
  rw [if_neg hany]

/-- C3 (corrected, counterexample): on `[2,1,2,2,1,0,0,1,0,2]` with
`lc = ld = 1` (so `lc ≤ ld` everywhere), the first returned region is `[0,1]`
and the first sum is `2`, while the inclusive total of the signal over `[0,1]`
is `3`: the sums are not the inclusive-range totals of the regions. -/
theorem accumulate_inclusive_sum_counterexample :
    (accumulate_detections ([2,1,2,2,1,0,0,1,0,2] : List ℤ)
        (fun _ => 1) (fun _ => 1)).toOption.map
      (fun r => (r.1.getD 0 0, r.2.2.getD 0 (0, 0))) = some (2, (0, 1)) ∧
    rangeSum ([2,1,2,2,1,0,0,1,0,2] : List ℤ) 0 (1 + 1) = 3 ∧ (2 : ℤ) ≠ 3 :=
  ⟨by rfl, by rfl, by decide⟩

/-- C3 (amended): when `lc ≤ ld` everywhere, each returned sum is the total of
the signal over its region read as a half-open range `[start, end)`, except
that a final run reaching the last sample (recorded with `end` clamped to
`length - 1`, recognisable by `end + 1 = length` with the last sample marked)
totals the inclusive range `[start, end]`. -/
theorem accumulate_region_sums {α : Type} [AddCommMonoid α] [LinearOrder α]
    (y : List α) (lc ld : ℕ → α) (h : ∀ i < y.length, lc i ≤ ld i)
    (sums : List α) (labels : List ℕ) (regions : List (ℕ × ℕ))
    (heq : accumulate_detections y lc ld = .ok (sums, labels, regions))
    (i : ℕ) (hi : i < sums.length) :
    sums.getD i 0 =
      if (regions.getD i (0, 0)).2 + 1 = y.length ∧
          lc (y.length - 1) < y.getD (y.length - 1) 0
      then rangeSum y (regions.getD i (0, 0)).1 ((regions.getD i (0, 0)).2 + 1)
      else rangeSum y (regions.getD i (0, 0)).1 (regions.getD i (0, 0)).2 := by
  have hany : ¬ (List.range y.length).any (fun i => decide (ld i < lc i)) = true := by
    intro hx
    rw [accumulate_detections, if_pos hx] at heq
    exact Except.noConfusion heq
  rw [accumulate_detections_ok y lc ld hany] at heq
  have h1 := Except.ok.inj heq
  have hS : (detConfirmed y lc ld).map (fun p => rangeSum y p.1 p.2) = sums :=
    congrArg Prod.fst h1
  have hR : (detConfirmed y lc ld).map (fun p => (p.1, min p.2 (y.length - 1))) = regions :=
    congrArg (fun t => t.2.2) h1
  have hlen : i < (detConfirmed y lc ld).length := by
    rw [← hS, List.length_map] at hi
    exact hi
  have hsum : sums.getD i 0 = rangeSum y ((detConfirmed y lc ld).get ⟨i, hlen⟩).1
      ((detConfirmed y lc ld).get ⟨i, hlen⟩).2 := by
    rw [← hS, List.getD_eq_getElem _ _ (by simpa using hlen), List.getElem_map]
    rfl
  have hreg : regions.getD i (0, 0) = (((detConfirmed y lc ld).get ⟨i, hlen⟩).1,
      min ((detConfirmed y lc ld).get ⟨i, hlen⟩).2 (y.length - 1)) := by
    rw [← hR, List.getD_eq_getElem _ _ (by simpa using hlen), List.getElem_map]
    rfl
  set p := (detConfirmed y lc ld).get ⟨i, hlen⟩ with hpdef
  have hpc : p ∈ detConfirmed y lc ld := List.get_mem _ _ hlen
  have hpruns : p ∈ detRuns y lc := List.mem_of_mem_filter hpc
  have hrun : isRun (detMask y lc) y.length p.1 p.2 = true :=
    (List.mem_filter.mp hpruns).2
  obtain ⟨hse, hen, hall, hlast⟩ := isRun_spec hrun
  have hn1 : 0 < y.length := Nat.lt_of_lt_of_le (Nat.lt_of_le_of_lt (Nat.zero_le _) hse) hen
  rw [hsum, hreg]
  by_cases hend : p.2 = y.length
  · have hmin : min p.2 (y.length - 1) = y.length - 1 := by
      rw [hend]
      exact Nat.min_eq_right (Nat.sub_le _ 1)
    have hc1 : y.length - 1 + 1 = y.length := Nat.succ_pred_eq_of_pos hn1
    have hmask : detMask y lc (y.length - 1) = true := by
      refine hall _ ?_ ?_
      · omega
      · omega
    rw [if_pos]
    · rw [hmin, hc1, ← hend]
    · refine ⟨by simpa [hmin] using hc1, ?_⟩
      simpa [detMask, decide_eq_true_eq] using hmask
  · have hlt : p.2 < y.length := lt_of_le_of_ne hen hend
    have hmin : min p.2 (y.length - 1) = p.2 := Nat.min_eq_left (by omega)
    rw [if_neg]
    · simp only [hmin]
    · rintro ⟨hcl, hcm⟩
      simp only [hmin] at hcl
      have hmaskF : detMask y lc p.2 = false := hlast.resolve_left hend
      have he2 : p.2 = y.length - 1 := by omega
      rw [he2] at hmaskF
      exact absurd hcm (by simpa [detMask, decide_eq_true_eq] using hmaskF)

/-- Witness for the amended theorem of C3 at the test vector of the repository. -/
theorem accumulate_region_sums_witness :
    (∀ i < ([2,1,2,2,1,0,0,1,0,2] : List ℤ).length,
      (fun _ => (1:ℤ)) i ≤ (fun _ => (1:ℤ)) i) ∧
    accumulate_detections ([2,1,2,2,1,0,0,1,0,2] : List ℤ) (fun _ => 1) (fun _ => 1) =
      .ok ([2,4,2], [1,0,2,2,0,0,0,0,0,3], [(0,1),(2,4),(9,9)]) ∧
    0 < ([2,4,2] : List ℤ).length ∧
    ([2,4,2] : List ℤ).getD 0 0 =
      if (([(0,1),(2,4),(9,9)] : List (ℕ × ℕ)).getD 0 (0, 0)).2 + 1 =
            ([2,1,2,2,1,0,0,1,0,2] : List ℤ).length ∧
          (fun _ => (1:ℤ)) (([2,1,2,2,1,0,0,1,0,2] : List ℤ).length - 1) <
            ([2,1,2,2,1,0,0,1,0,2] : List ℤ).getD
              (([2,1,2,2,1,0,0,1,0,2] : List ℤ).length - 1) 0
      then rangeSum ([2,1,2,2,1,0,0,1,0,2] : List ℤ)
            (([(0,1),(2,4),(9,9)] : List (ℕ × ℕ)).getD 0 (0, 0)).1
            ((([(0,1),(2,4),(9,9)] : List (ℕ × ℕ)).getD 0 (0, 0)).2 + 1)
      else rangeSum ([2,1,2,2,1,0,0,1,0,2] : List ℤ)
            (([(0,1),(2,4),(9,9)] : List (ℕ × ℕ)).getD 0 (0, 0)).1
            (([(0,1),(2,4),(9,9)] : List (ℕ × ℕ)).getD 0 (0, 0)).2 :=
  ⟨fun _ _ => le_refl 1, by rfl, by decide,
    accumulate_region_sums ([2,1,2,2,1,0,0,1,0,2] : List ℤ) (fun _ => 1) (fun _ => 1)
      (fun _ _ => le_refl 1) [2,4,2] [1,0,2,2,0,0,0,0,0,3] [(0,1),(2,4),(9,9)]
      (by rfl) 0 (by decide)⟩
